import Mathlib

/-!
Shallow embedding of the device-binding / session-exclusivity core of the
`devnolife/electron-device` repository.

Server side (backend-express):
* `DeviceService`  (src/backend-express/src/services/deviceService.js)
* `TokenService`   (tokenService, second half of deviceService.js bundle)
* `AuthService`    (src/unnamed/part_002, services/authService.js)

Client side (Electron):
* `SecureDeviceManager` (src/unnamed/part_003, utils/secureDevice.js)

Machine ints are modelled as `Nat` (JS `Date.now()` milliseconds); database
tables are lists of records; cryptographic primitives (SHA-256, bcrypt, JWT
signing) are parameters of an explicit context, exactly as the spec treats
them as collaborator inputs.  Thrown JS errors are modelled as `Except`
errors, and every state-changing operation returns the (possibly unchanged)
state explicitly.
-/

/-- A row of the `User` table (prisma schema; fields read by the auth core). -/
structure User where
  id : Nat
  username : String
  email : String
  /-- bcrypt hash of the password as stored in the DB. -/
  password : String
  isActive : Bool
  deriving Repr, DecidableEq

/-- A row of the `Token` table: `tokenService.generateToken` writes
`token, userId, deviceHash, expiresAt, isValid, createdAt, lastUsed`. -/
structure Token where
  /-- autoincrement primary key, used by `prisma.token.update({where:{id}})`. -/
  id : Nat
  token : String
  userId : Nat
  /-- the server-side processed (salted) device hash. -/
  deviceHash : String
  /-- expiry instant, milliseconds since epoch. -/
  expiresAt : Nat
  isValid : Bool
  createdAt : Nat
  lastUsed : Nat
  deriving Repr, DecidableEq

/-- The persistent server state: the two tables plus autoincrement counters. -/
structure ServerState where
  users : List User
  tokens : List Token
  nextUserId : Nat
  nextTokenId : Nat
  deriving Repr, DecidableEq

/-- Collaborator primitives consumed by the core (spec section 6): SHA-256 hex
digest, the server-held `DEVICE_SALT`, bcrypt hash/compare, JWT signing,
JWT signature/expiry verification, and JWT payload decoding. -/
structure Ctx where
  /-- `crypto.createHash('sha256').update(s).digest('hex')`. -/
  sha : String → String
  /-- `process.env.DEVICE_SALT`. -/
  salt : String
  /-- `bcrypt.hash` (argument: plaintext). -/
  pwHash : String → String
  /-- `bcrypt.compare plaintext storedHash`. -/
  pwVerify : String → String → Bool
  /-- `generateToken({userId, deviceHash})` from utils/jwt, with the signing
  instant made explicit: arguments userId, deviceHash, now. -/
  signToken : Nat → String → Nat → String
  /-- `verifyToken` from utils/jwt: JWT signature and embedded-expiry check of
  a token string at an instant. -/
  jwtOk : String → Nat → Bool
  /-- `decoded.userId` of a JWT accepted by `jwtOk`. -/
  jwtUserId : String → Nat

/-- deviceService.generateDeviceHash (deviceService.js lines 10-13):
`sha256(`${deviceHash}-${serverSalt}`)`. -/
def generateDeviceHash (ctx : Ctx) (deviceHash : String) : String :=
  ctx.sha (deviceHash ++ "-" ++ ctx.salt)

/-- Characters matched by the JS character class `[a-fA-F0-9]`. -/
def isHexChar (c : Char) : Bool :=
  ('a' ≤ c && c ≤ 'f') || ('A' ≤ c && c ≤ 'F') || ('0' ≤ c && c ≤ '9')

/-- deviceService.isValidDeviceHash (deviceService.js lines 20-27):
`!deviceHash` rejects the empty string, then
`deviceHash.length >= 32 && /^[a-fA-F0-9]+$/.test(deviceHash)`.
(The `typeof` guard is vacuous in a typed embedding; the regex's
nonemptiness requirement is subsumed by the length bound.) -/
def isValidDeviceHash (s : String) : Bool :=
  if s = "" then false
  else decide (32 ≤ s.length) && s.data.all isHexChar

/-- A live token at instant `now`: `isValid = true AND expiresAt > now`
(the recurring prisma `where` clause). -/
def liveAt (now : Nat) (t : Token) : Bool :=
  t.isValid && decide (now < t.expiresAt)

/-- `prisma.user.findFirst({where:{id}})` — first user with the given id
(unique in reachable states). -/
def findUser (st : ServerState) (uid : Nat) : Option User :=
  st.users.find? (fun u => u.id == uid)

/-- The `include: {user: {select: {id, isActive}}}` + `existingToken.user.isActive`
step of `isDeviceHashInUse`: whether the owning user row is active.  (The
foreign key guarantees the owner exists; an orphan token counts as inactive.) -/
def ownerIsActive (st : ServerState) (t : Token) : Bool :=
  match findUser st t.userId with
  | some u => u.isActive
  | none => false

/-- deviceService.isDeviceHashInUse (deviceService.js lines 35-64) as called by
`register` (with `excludeUserId = null`, so no user filter): find the first
live token bound to the processed hash and report whether its owner is active. -/
def isDeviceHashInUse (ctx : Ctx) (st : ServerState) (now : Nat) (deviceHash : String) : Bool :=
  let processed := generateDeviceHash ctx deviceHash
  match st.tokens.find? (fun t => t.deviceHash == processed && liveAt now t) with
  | some t => ownerIsActive st t
  | none => false

/-- 24 hours in milliseconds: `24 * 60 * 60 * 1000` (tokenService.generateToken). -/
def TOKEN_TTL_MS : Nat := 24 * 60 * 60 * 1000

/-- tokenService.generateToken (tokenService.js / deviceService bundle lines
187-208): sign a JWT over `{userId, deviceHash}` and insert a token row with
`expiresAt = now + 24h`, `isValid = true`, fresh `createdAt`/`lastUsed`. -/
def generateToken (ctx : Ctx) (st : ServerState) (now userId : Nat) (deviceHash : String) :
    String × ServerState :=
  let tok := ctx.signToken userId deviceHash now
  let row : Token :=
    { id := st.nextTokenId, token := tok, userId := userId, deviceHash := deviceHash,
      expiresAt := now + TOKEN_TTL_MS, isValid := true, createdAt := now, lastUsed := now }
  (tok, { st with tokens := st.tokens ++ [row], nextTokenId := st.nextTokenId + 1 })

/-- The structured error kinds thrown by `AuthService.register`/`login`
(part_002), identified by their thrown message strings. -/
inductive AuthError where
  /-- 'Invalid device hash format' -/
  | invalidDeviceHash
  /-- 'Device is already registered to another user' -/
  | deviceAlreadyRegistered
  /-- 'Username already exists' -/
  | usernameExists
  /-- 'Email already exists' -/
  | emailExists
  /-- 'Invalid credentials' -/
  | invalidCredentials
  deriving Repr, DecidableEq

/-- The success payload of register/login that matters to the claims: the
account the token was issued to and the signed token string. -/
structure AuthSuccess where
  userId : Nat
  token : String
  deriving Repr, DecidableEq

/-- AuthService.register (part_002 lines 13-81): format check, device-in-use
check, username/email uniqueness check, then create the user and issue a token
bound to the processed device hash.  A thrown error aborts before any write,
so the input state is returned unchanged alongside the error. -/
def register (ctx : Ctx) (st : ServerState) (now : Nat)
    (username email password deviceHash : String) :
    Except AuthError AuthSuccess × ServerState :=
  if !isValidDeviceHash deviceHash then (.error .invalidDeviceHash, st)
  else if isDeviceHashInUse ctx st now deviceHash then (.error .deviceAlreadyRegistered, st)
  else match st.users.find? (fun u => u.username == username || u.email == email) with
    | some u =>
      if u.username == username then (.error .usernameExists, st)
      else (.error .emailExists, st)
    | none =>
      let user : User :=
        { id := st.nextUserId, username := username, email := email,
          password := ctx.pwHash password, isActive := true }
      let st1 : ServerState :=
        { st with users := st.users ++ [user], nextUserId := st.nextUserId + 1 }
      let res := generateToken ctx st1 now user.id (generateDeviceHash ctx deviceHash)
      (.ok { userId := user.id, token := res.1 }, res.2)

/-- AuthService.login (part_002 lines 88-136): format check, find the active
user by username OR email, bcrypt-compare the password, then issue a token
bound to the processed device hash.  NOTE: faithfully to the source, there is
no check against an existing live token of the account on another device. -/
def login (ctx : Ctx) (st : ServerState) (now : Nat)
    (username password deviceHash : String) :
    Except AuthError AuthSuccess × ServerState :=
  if !isValidDeviceHash deviceHash then (.error .invalidDeviceHash, st)
  else match st.users.find? (fun u => (u.username == username || u.email == username) && u.isActive) with
    | none => (.error .invalidCredentials, st)
    | some user =>
      if !ctx.pwVerify password user.password then (.error .invalidCredentials, st)
      else
        let res := generateToken ctx st now user.id (generateDeviceHash ctx deviceHash)
        (.ok { userId := user.id, token := res.1 }, res.2)

/-- tokenService.invalidateToken: `updateMany({where:{token}, data:{isValid:false}})`. -/
def invalidateToken (st : ServerState) (tok : String) : ServerState :=
  { st with tokens := st.tokens.map (fun t =>
      if t.token == tok then { t with isValid := false } else t) }

/-- tokenService.invalidateAllUserTokens:
`updateMany({where:{userId}, data:{isValid:false}})`. -/
def invalidateAllUserTokens (st : ServerState) (uid : Nat) : ServerState :=
  { st with tokens := st.tokens.map (fun t =>
      if t.userId == uid then { t with isValid := false } else t) }

/-- tokenService.invalidateOtherDeviceTokens (lines 295-306):
`updateMany({where:{userId, deviceHash:{not:currentDeviceHash}, isValid:true}})`. -/
def invalidateOtherDeviceTokens (st : ServerState) (uid : Nat) (currentHash : String) :
    ServerState :=
  { st with tokens := st.tokens.map (fun t =>
      if t.userId == uid && !(t.deviceHash == currentHash) && t.isValid
      then { t with isValid := false } else t) }

/-- AuthService.logout (part_002 lines 143-151). -/
def logout (st : ServerState) (tok : String) : ServerState :=
  invalidateToken st tok

/-- AuthService.forceLogout (part_002 lines 158-166). -/
def forceLogout (st : ServerState) (uid : Nat) : ServerState :=
  invalidateAllUserTokens st uid

/-- AuthService.logoutFromOtherDevices (part_002 lines 174-188): salt the
client hash, then invalidate the account's tokens on every other device. -/
def logoutFromOtherDevices (ctx : Ctx) (st : ServerState) (uid : Nat) (deviceHash : String) :
    ServerState :=
  invalidateOtherDeviceTokens st uid (generateDeviceHash ctx deviceHash)

/-- Failure kinds of token verification. -/
inductive VerifyError where
  /-- `jwt.verify` threw (bad signature or JWT-level expiry). -/
  | jwtInvalid
  /-- 'Token not found or expired' -/
  | tokenNotFound
  /-- 'User not found or inactive' -/
  | userNotFoundOrInactive
  deriving Repr, DecidableEq

/-- tokenService.verifyToken (lines 215-241): JWT check, then find a live DB
record with this token string, then refresh its `lastUsed` (update by row id). -/
def verifyTokenSvc (ctx : Ctx) (st : ServerState) (now : Nat) (tok : String) :
    Except VerifyError Token × ServerState :=
  if !ctx.jwtOk tok now then (.error .jwtInvalid, st)
  else match st.tokens.find? (fun t => t.token == tok && liveAt now t) with
    | none => (.error .tokenNotFound, st)
    | some t =>
      (.ok t, { st with tokens := st.tokens.map (fun r =>
        if r.id == t.id then { r with lastUsed := now } else r) })

/-- AuthService.verifyToken (part_002 lines 195-224): token-service check, then
look up the user from the decoded JWT payload and require it active. -/
def verifyTokenAuth (ctx : Ctx) (st : ServerState) (now : Nat) (tok : String) :
    Except VerifyError Nat × ServerState :=
  match verifyTokenSvc ctx st now tok with
  | (.error e, st2) => (.error e, st2)
  | (.ok _, st2) =>
    match findUser st2 (ctx.jwtUserId tok) with
    | some u => if u.isActive then (.ok u.id, st2) else (.error .userNotFoundOrInactive, st2)
    | none => (.error .userNotFoundOrInactive, st2)

/-- The spec's EXCLUSIVITY invariant, decidably: for every active account, all
live tokens of that account carry the same processed device hash. -/
def exclusivityHolds (st : ServerState) (now : Nat) : Bool :=
  st.users.all (fun u =>
    !u.isActive ||
    (st.tokens.all (fun t1 =>
      st.tokens.all (fun t2 =>
        !(t1.userId == u.id && t2.userId == u.id && liveAt now t1 && liveAt now t2) ||
        t1.deviceHash == t2.deviceHash))))

/-- One entry of `os.networkInterfaces()` as read by the fingerprint code. -/
structure NetIface where
  internal : Bool
  mac : String
  deriving Repr, DecidableEq

/-- The local hardware/OS attributes read by `SecureDeviceManager`
(part_003, utils/secureDevice.js).  `machineIdSync(true)` is the fallible
read: the JS call throws on failure, which the source wraps in try/catch;
it is modelled as an `Except`.  `os.cpus()` may be empty (`[0]?.model`). -/
structure HwEnv where
  machineIdResult : Except String String
  cpuModels : List String
  platform : String
  arch : String
  hostname : String
  totalMemory : Nat
  interfaces : List NetIface
  deriving Repr

/-- `os.cpus()[0]?.model || 'unknown'` (part_003 line 45); JS `||` also maps
the empty string to 'unknown'. -/
def cpuInfoOf (env : HwEnv) : String :=
  match env.cpuModels.head? with
  | some m => if m = "" then "unknown" else m
  | none => "unknown"

/-- The interface filter of `getHardwareFingerprint` (part_003 lines 55-62):
drop internal, empty/zero and known virtual-vendor-prefix MACs. -/
def macFilter (i : NetIface) : Bool :=
  !i.internal && !(i.mac == "") && !(i.mac == "00:00:00:00:00:00") &&
  !(i.mac.startsWith "00:15:5d") && !(i.mac.startsWith "00:50:56") &&
  !(i.mac.startsWith "08:00:27")

/-- Insert into a sorted list of strings (helper for the JS `.sort()`). -/
def insertSorted (s : String) : List String → List String
  | [] => [s]
  | x :: xs => if s ≤ x then s :: x :: xs else x :: insertSorted s xs

/-- JS `Array.prototype.sort()` on strings (default lexicographic order). -/
def sortStrings : List String → List String
  | [] => []
  | x :: xs => insertSorted x (sortStrings xs)

/-- part_003 lines 53-65: filter, map to MAC, sort, join with ','. -/
def macAddressesOf (env : HwEnv) : String :=
  String.intercalate "," (sortStrings ((env.interfaces.filter macFilter).map NetIface.mac))

/-- The `hardwareData` object whose JSON serialization is fingerprinted. -/
structure HwData where
  machineId : String
  cpuInfo : String
  platform : String
  arch : String
  hostname : String
  totalMemory : Nat
  macAddresses : String
  deriving Repr, DecidableEq

/-- JSON string escaping for the values at hand (quote and backslash; the
hardware strings contain no control characters, which `JSON.stringify` would
additionally escape). -/
def jsonEscape (s : String) : String :=
  s.data.foldr (fun c acc =>
    if c = '"' then "\\\"" ++ acc
    else if c = '\\' then "\\\\" ++ acc
    else String.singleton c ++ acc) ""

def jsonStr (s : String) : String := "\"" ++ jsonEscape s ++ "\""

/-- `JSON.stringify(hardwareData)` with the object-literal key order of
part_003 lines 67-75. -/
def hardwareDataJson (h : HwData) : String :=
  "\x7b" ++ jsonStr "machineId" ++ ":" ++ jsonStr h.machineId ++
  "," ++ jsonStr "cpuInfo" ++ ":" ++ jsonStr h.cpuInfo ++
  "," ++ jsonStr "platform" ++ ":" ++ jsonStr h.platform ++
  "," ++ jsonStr "arch" ++ ":" ++ jsonStr h.arch ++
  "," ++ jsonStr "hostname" ++ ":" ++ jsonStr h.hostname ++
  "," ++ jsonStr "totalMemory" ++ ":" ++ toString h.totalMemory ++
  "," ++ jsonStr "macAddresses" ++ ":" ++ jsonStr h.macAddresses ++ "\x7d"

/-- The hardware attributes as assembled inside `getHardwareFingerprint`,
given a successful `machineIdSync` read. -/
def hwDataOf (env : HwEnv) (mid : String) : HwData :=
  { machineId := mid, cpuInfo := cpuInfoOf env, platform := env.platform,
    arch := env.arch, hostname := env.hostname, totalMemory := env.totalMemory,
    macAddresses := macAddressesOf env }

/-- SecureDeviceManager.getHardwareFingerprint (part_003 lines 42-85): on any
attribute read failure the catch block throws
'Cannot generate hardware fingerprint'; otherwise the SHA-256 hex digest of
the JSON-serialized hardware data. -/
def getHardwareFingerprint (sha : String → String) (env : HwEnv) : Except String String :=
  match env.machineIdResult with
  | .error _ => .error "Cannot generate hardware fingerprint"
  | .ok mid => .ok (sha (hardwareDataJson (hwDataOf env mid)))

/-- SecureDeviceManager.getEncryptionKey (part_003 lines 22-37): hardware-
derived 32-char key, with a fixed fallback value when the hardware read throws. -/
def getEncryptionKey (sha : String → String) (env : HwEnv) : String :=
  match env.machineIdResult with
  | .error _ => "fallback-encryption-key-32-chars"
  | .ok mid =>
    (sha (mid ++ "-" ++ env.platform ++ "-" ++ env.arch ++ "-secure-device-key")).take 32

/-- The stored device binding (part_003 lines 158-166). `bindTime` is held as
milliseconds since epoch (the source stores an ISO string and recovers the
instant with `new Date(...).getTime()`). -/
structure DeviceBinding where
  deviceId : String
  hardwareFingerprint : String
  bindTime : Nat
  platform : String
  arch : String
  hostname : String
  appVersion : String
  deriving Repr, DecidableEq

/-- The `{isValid, reason}` shape returned by `validateDeviceBinding`
(auxiliary `details`/`bindingAge` diagnostics omitted; `bindingInfo` kept). -/
structure ValidateResult where
  isValid : Bool
  reason : Option String
  bindingInfo : Option DeviceBinding
  deriving Repr, DecidableEq

/-- `maxAge` of a binding: `365 * 24 * 60 * 60 * 1000` (part_003 line 125). -/
def MAX_BINDING_AGE_MS : Nat := 365 * 24 * 60 * 60 * 1000

/-- SecureDeviceManager.validateDeviceBinding (part_003 lines 102-147):
missing binding, then fingerprint comparison, then age check, in that order;
a thrown fingerprint error is caught and reported as 'Validation error'. -/
def validateDeviceBinding (sha : String → String) (env : HwEnv)
    (stored : Option DeviceBinding) (now : Nat) : ValidateResult :=
  match stored with
  | none => { isValid := false, reason := some "No device binding found", bindingInfo := none }
  | some b =>
    match getHardwareFingerprint sha env with
    | .error _ =>
      { isValid := false, reason := some "Validation error", bindingInfo := none }
    | .ok fp =>
      if !(b.hardwareFingerprint == fp) then
        { isValid := false, reason := some "Hardware fingerprint mismatch", bindingInfo := none }
      else if MAX_BINDING_AGE_MS < now - b.bindTime then
        { isValid := false, reason := some "Device binding expired", bindingInfo := none }
      else
        { isValid := true, reason := none, bindingInfo := some b }

/-- SecureDeviceManager.createDeviceBinding (part_003 lines 152-187): compute a
fresh fingerprint (rethrowing its failure as
'Failed to create device binding'), then assemble and persist the binding.
`crypto.randomUUID()` and the package version are explicit inputs. -/
def createDeviceBinding (sha : String → String) (env : HwEnv)
    (newDeviceId : String) (now : Nat) (appVersion : String) :
    Except String DeviceBinding :=
  match getHardwareFingerprint sha env with
  | .error _ => .error "Failed to create device binding"
  | .ok fp =>
    .ok { deviceId := newDeviceId, hardwareFingerprint := fp, bindTime := now,
          platform := env.platform, arch := env.arch, hostname := env.hostname,
          appVersion := appVersion }

/-! ### Concrete evaluation fixtures

A concrete collaborator context for evaluating the operations: an injective
stand-in for the SHA-256 hex digest, bcrypt modelled as a tagging scheme, and
a JWT signer that serializes its payload. -/

def testSha (s : String) : String := "H" ++ s

def testCtx : Ctx :=
  { sha := testSha, salt := "salt",
    pwHash := fun p => "bc" ++ p,
    pwVerify := fun p h => h == "bc" ++ p,
    signToken := fun uid dh now => "jwt-" ++ toString uid ++ "-" ++ dh ++ "-" ++ toString now,
    jwtOk := fun _ _ => true,
    jwtUserId := fun _ => 1 }

/-- A well-formed client device hash (32 hex characters): device A. -/
def hashA : String := "aaaaaaaaaaaaaaaaaaaaaaaaaaaaaaaa"

/-- A well-formed client device hash of a second, distinct device B. -/
def hashB : String := "bbbbbbbbbbbbbbbbbbbbbbbbbbbbbbbb"

def alice : User :=
  { id := 1, username := "alice", email := "alice@example.com",
    password := "bcpw", isActive := true }

/-- A live token of alice bound to device A's processed hash. -/
def tokA : Token :=
  { id := 1, token := "jwtA", userId := 1,
    deviceHash := generateDeviceHash testCtx hashA,
    expiresAt := 90000000, isValid := true, createdAt := 0, lastUsed := 0 }

/-- State in which alice's account holds a live token on device A. -/
def st0 : ServerState :=
  { users := [alice], tokens := [tokA], nextUserId := 2, nextTokenId := 2 }

/-- State in which alice is registered but holds no token at all. -/
def stNoTok : ServerState :=
  { users := [alice], tokens := [], nextUserId := 2, nextTokenId := 1 }


/-- C1: REFUTED ON THE CODE (code bug).  With alice's account holding a live
token on device A (`st0`), a login with correct credentials and a well-formed
hash of a DIFFERENT device B is nevertheless Granted: no
ACCOUNT_ACTIVE_ON_OTHER_DEVICE rejection exists in `AuthService.login`, a new
token is created for device B, and the account ends up with two live tokens on
two distinct processed device hashes. -/
theorem C1_login_from_other_device_granted :
    (login testCtx st0 1000 "alice" "pw" hashB).1.isOk = true ∧
    tokA ∈ (login testCtx st0 1000 "alice" "pw" hashB).2.tokens ∧
    ((login testCtx st0 1000 "alice" "pw" hashB).2.tokens.filter
      (fun t => t.userId == 1 && liveAt 1000 t)).length = 2 ∧
    ((login testCtx st0 1000 "alice" "pw" hashB).2.tokens.filter
      (fun t => t.userId == 1 && liveAt 1000 t && t.deviceHash == generateDeviceHash testCtx hashB)).length = 1 := by
  decide

/-- C2: REFUTED ON THE CODE (code bug).  The EXCLUSIVITY invariant holds in
`st0` (one live token for alice) but is destroyed by the `login` operation
itself: after a correct-credential login from device B the account holds live
tokens on two distinct processed hashes. -/
theorem C2_login_breaks_exclusivity :
    exclusivityHolds st0 1000 = true ∧
    exclusivityHolds (login testCtx st0 1000 "alice" "pw" hashB).2 1000 = false := by
  decide

/-- C3: REFUTED ON THE CODE (code bug).  Two login attempts for the same
account from two distinct well-formed device hashes are BOTH Granted — already
under fully serialized execution (one schedule of the claimed concurrent
runs), because the code performs no conflict check at all; the claim demands
exactly one Granted outcome. -/
theorem C3_two_logins_both_granted :
    (login testCtx stNoTok 1000 "alice" "pw" hashA).1.isOk = true ∧
    (login testCtx (login testCtx stNoTok 1000 "alice" "pw" hashA).2
        2000 "alice" "pw" hashB).1.isOk = true ∧
    exclusivityHolds (login testCtx (login testCtx stNoTok 1000 "alice" "pw" hashA).2
        2000 "alice" "pw" hashB).2 2000 = false := by
  decide

/-- C4: for every registration request with a well-formed device hash whose
salted derivative is bound to a live token owned by an active account,
registration fails with DEVICE_ALREADY_REGISTERED and the state — hence the
user and token tables — is unchanged.  The hypothesis `hown` is the spec's own
invariant that a token exists only while its owning account is active (it
rules out unreachable states where the first live token found on that hash is
an orphan of an inactive account). -/
theorem C4_register_rejects_device_in_use
    (ctx : Ctx) (st : ServerState) (now : Nat) (un em pw dh : String)
    (hfmt : isValidDeviceHash dh = true)
    (hlive : ∃ t ∈ st.tokens, t.deviceHash = generateDeviceHash ctx dh ∧ liveAt now t = true ∧
      ownerIsActive st t = true)
    (hown : ∀ t ∈ st.tokens, liveAt now t = true → ownerIsActive st t = true) :
    register ctx st now un em pw dh = (.error .deviceAlreadyRegistered, st) := by
  have hin : isDeviceHashInUse ctx st now dh = true := by
    obtain ⟨t, ht, hdh, hl, _⟩ := hlive
    show (match st.tokens.find?
        (fun t => t.deviceHash == generateDeviceHash ctx dh && liveAt now t) with
      | some t => ownerIsActive st t
      | none => false) = true
    cases hfind : st.tokens.find?
        (fun t => t.deviceHash == generateDeviceHash ctx dh && liveAt now t) with
    | none =>
      exfalso
      have hnone := List.find?_eq_none.mp hfind t ht
      simp [hdh, hl] at hnone
    | some t0 =>
      have hp := List.find?_some hfind
      have hmem := List.mem_of_find?_eq_some hfind
      simp only [Bool.and_eq_true] at hp
      simpa using hown t0 hmem hp.2
  simp [register, hfmt, hin]

/-- Closed witness for C4 at `st0`: a second user registering with device A's
hash (bound to alice's live token) is rejected and the state is untouched. -/
theorem C4_register_rejects_device_in_use_witness :
    register testCtx st0 1000 "bob" "bob@example.com" "pw2" hashA =
      (.error .deviceAlreadyRegistered, st0) :=
  C4_register_rejects_device_in_use testCtx st0 1000 "bob" "bob@example.com" "pw2" hashA
    (by decide) ⟨tokA, by decide, by decide, by decide, by decide⟩ (by decide)

/-- C5: the device-hash format gate accepts a string exactly when it is a
hexadecimal string of at least the fixed minimum length 32, and every register
or login request whose hash fails the gate is rejected with the
invalid-device-hash error without any state mutation. -/
theorem C5_device_hash_format_gate
    (s dh : String) (ctx : Ctx) (st : ServerState) (now : Nat) (un em pw : String)
    (hbad : isValidDeviceHash dh = false) :
    (isValidDeviceHash s = true ↔ 32 ≤ s.length ∧ s.data.all isHexChar = true) ∧
    register ctx st now un em pw dh = (.error .invalidDeviceHash, st) ∧
    login ctx st now un pw dh = (.error .invalidDeviceHash, st) := by
  refine ⟨?_, ?_, ?_⟩
  · unfold isValidDeviceHash
    by_cases hs : s = ""
    · subst hs
      simp
    · simp [hs, Bool.and_eq_true, decide_eq_true_iff]
  · simp [register, hbad]
  · simp [login, hbad]

/-- Closed witness for C5: a 31-character hex string fails the gate; the state
is untouched and the request rejected for both operations. -/
theorem C5_device_hash_format_gate_witness :
    isValidDeviceHash "aaaaaaaaaaaaaaaaaaaaaaaaaaaaaaa" = false ∧
    (isValidDeviceHash hashA = true ↔
      32 ≤ hashA.length ∧ hashA.data.all isHexChar = true) ∧
    register testCtx st0 1000 "bob" "bob@example.com" "pw2" "aaaaaaaaaaaaaaaaaaaaaaaaaaaaaaa" =
      (.error .invalidDeviceHash, st0) ∧
    login testCtx st0 1000 "alice" "pw" "aaaaaaaaaaaaaaaaaaaaaaaaaaaaaaa" =
      (.error .invalidDeviceHash, st0) :=
  ⟨by decide,
   (C5_device_hash_format_gate hashA "aaaaaaaaaaaaaaaaaaaaaaaaaaaaaaa" testCtx st0 1000
      "bob" "bob@example.com" "pw2" (by decide)).1,
   (C5_device_hash_format_gate hashA "aaaaaaaaaaaaaaaaaaaaaaaaaaaaaaa" testCtx st0 1000
      "bob" "bob@example.com" "pw2" (by decide)).2.1,
   (C5_device_hash_format_gate hashA "aaaaaaaaaaaaaaaaaaaaaaaaaaaaaaa" testCtx st0 1000
      "alice" "unused-email" "pw" (by decide)).2.2⟩

/-- A concrete healthy hardware environment. -/
def goodEnv : HwEnv :=
  { machineIdResult := .ok "mid-123", cpuModels := ["cpuX"], platform := "linux",
    arch := "x64", hostname := "host1", totalMemory := 1024,
    interfaces := [{ internal := false, mac := "aa:bb:cc:dd:ee:ff" }] }

/-- The same machine with the hardware identifier read failing (the call that
the source wraps in try/catch throws). -/
def badEnv : HwEnv :=
  { goodEnv with machineIdResult := .error "read failed" }

/-- The fingerprint of `goodEnv` under the test digest. -/
def fpGood : String := testSha (hardwareDataJson (hwDataOf goodEnv "mid-123"))

/-- A stored binding of `goodEnv` created at instant 0. -/
def bGood : DeviceBinding :=
  { deviceId := "uuid-1", hardwareFingerprint := fpGood, bindTime := 0,
    platform := "linux", arch := "x64", hostname := "host1", appVersion := "1.0.0" }

/-- A stored binding whose fingerprint does not match `goodEnv` and whose age
at instant 31536000001 exceeds the one-year maximum. -/
def bOld : DeviceBinding :=
  { deviceId := "uuid-0", hardwareFingerprint := "stale-fingerprint", bindTime := 0,
    platform := "linux", arch := "x64", hostname := "host0", appVersion := "1.0.0" }

/-- C6 counterexample: with the hardware-identifier read failing, the
Hardware Identity Extractor does NOT return a fallback digest — it aborts with
an error — and device-binding creation fails rather than completing.  (The
fixed fallback exists only in the encryption-key derivation.) -/
theorem C6_fingerprint_failure_aborts_counterexample :
    getHardwareFingerprint testSha badEnv = .error "Cannot generate hardware fingerprint" ∧
    (getHardwareFingerprint testSha badEnv).isOk = false ∧
    createDeviceBinding testSha badEnv "uuid-1" 0 "1.0.0" =
      .error "Failed to create device binding" ∧
    (createDeviceBinding testSha badEnv "uuid-1" 0 "1.0.0").isOk = false :=
  ⟨rfl, rfl, rfl, rfl⟩

/-- C6 amended: on a hardware-attribute read failure only the encryption-key
derivation degrades to the fixed fallback key; fingerprint computation aborts
with 'Cannot generate hardware fingerprint', device-binding creation therefore
fails with 'Failed to create device binding', and binding validation completes
but reports invalid with reason 'Validation error'. -/
theorem C6_fallback_only_for_encryption_key
    (sha : String → String) (env : HwEnv) (e : String)
    (hfail : env.machineIdResult = .error e) :
    getEncryptionKey sha env = "fallback-encryption-key-32-chars" ∧
    getHardwareFingerprint sha env = .error "Cannot generate hardware fingerprint" ∧
    (∀ did now v, createDeviceBinding sha env did now v =
      .error "Failed to create device binding") ∧
    (∀ b now, validateDeviceBinding sha env (some b) now =
      { isValid := false, reason := some "Validation error", bindingInfo := none }) := by
  refine ⟨?_, ?_, fun did now v => ?_, fun b now => ?_⟩ <;>
    simp [getEncryptionKey, getHardwareFingerprint, createDeviceBinding,
      validateDeviceBinding, hfail]

/-- Closed witness for the amended C6 at `badEnv`. -/
theorem C6_fallback_only_for_encryption_key_witness :
    getEncryptionKey testSha badEnv = "fallback-encryption-key-32-chars" ∧
    getHardwareFingerprint testSha badEnv = .error "Cannot generate hardware fingerprint" ∧
    createDeviceBinding testSha badEnv "uuid-1" 0 "1.0.0" =
      .error "Failed to create device binding" ∧
    validateDeviceBinding testSha badEnv (some bOld) 0 =
      { isValid := false, reason := some "Validation error", bindingInfo := none } :=
  ⟨(C6_fallback_only_for_encryption_key testSha badEnv "read failed" rfl).1,
   (C6_fallback_only_for_encryption_key testSha badEnv "read failed" rfl).2.1,
   (C6_fallback_only_for_encryption_key testSha badEnv "read failed" rfl).2.2.1 "uuid-1" 0 "1.0.0",
   (C6_fallback_only_for_encryption_key testSha badEnv "read failed" rfl).2.2.2 bOld 0⟩

/-- C7 counterexample: a stored binding that is BOTH older than one year and
fingerprint-mismatched yields reason 'Hardware fingerprint mismatch', not
'Device binding expired' — so the binding-expired verdict is NOT independent
of fingerprint match (the mismatch check runs first). -/
theorem C7_expiry_not_independent_counterexample :
    MAX_BINDING_AGE_MS < 31536000001 - bOld.bindTime ∧
    validateDeviceBinding testSha goodEnv (some bOld) 31536000001 =
      { isValid := false, reason := some "Hardware fingerprint mismatch", bindingInfo := none } ∧
    (validateDeviceBinding testSha goodEnv (some bOld) 31536000001).reason ≠
      some "Device binding expired" := by
  refine ⟨by decide, rfl, by decide⟩

/-- C7 amended: `validate()` returns missing-binding when no binding is
stored; fingerprint-mismatch whenever the recomputed fingerprint differs from
the stored one (in particular after mutating any attribute, such as the
hostname, that changes the digest) — and this check takes precedence over the
age check; binding-expired when the fingerprint matches AND the binding is
older than one year; and valid otherwise. -/
theorem C7_validate_characterization
    (sha : String → String) (env : HwEnv) (b : DeviceBinding) (now : Nat) (fp : String)
    (hfp : getHardwareFingerprint sha env = .ok fp) :
    (validateDeviceBinding sha env none now =
      { isValid := false, reason := some "No device binding found", bindingInfo := none }) ∧
    (b.hardwareFingerprint ≠ fp →
      validateDeviceBinding sha env (some b) now =
        { isValid := false, reason := some "Hardware fingerprint mismatch", bindingInfo := none }) ∧
    (b.hardwareFingerprint = fp → MAX_BINDING_AGE_MS < now - b.bindTime →
      validateDeviceBinding sha env (some b) now =
        { isValid := false, reason := some "Device binding expired", bindingInfo := none }) ∧
    (b.hardwareFingerprint = fp → ¬ MAX_BINDING_AGE_MS < now - b.bindTime →
      validateDeviceBinding sha env (some b) now =
        { isValid := true, reason := none, bindingInfo := some b }) := by
  refine ⟨rfl, fun hne => ?_, fun heq hage => ?_, fun heq hage => ?_⟩ <;>
    simp [validateDeviceBinding, hfp, *]

/-- Closed witness for the amended C7, exercising all four verdicts. -/
theorem C7_validate_characterization_witness :
    (validateDeviceBinding testSha goodEnv none 1000 =
      { isValid := false, reason := some "No device binding found", bindingInfo := none }) ∧
    (validateDeviceBinding testSha goodEnv (some bOld) 1000 =
      { isValid := false, reason := some "Hardware fingerprint mismatch", bindingInfo := none }) ∧
    (validateDeviceBinding testSha goodEnv (some bGood) 31536000001 =
      { isValid := false, reason := some "Device binding expired", bindingInfo := none }) ∧
    (validateDeviceBinding testSha goodEnv (some bGood) 1000 =
      { isValid := true, reason := none, bindingInfo := some bGood }) :=
  ⟨(C7_validate_characterization testSha goodEnv bGood 1000 fpGood rfl).1,
   (C7_validate_characterization testSha goodEnv bOld 1000 fpGood rfl).2.1 (by decide),
   (C7_validate_characterization testSha goodEnv bGood 31536000001 fpGood rfl).2.2.1 rfl
     (by decide),
   (C7_validate_characterization testSha goodEnv bGood 1000 fpGood rfl).2.2.2 rfl
     (by decide)⟩

/-- If the store holds no live record with the given token string, `verify`
fails regardless of the JWT-layer outcome. -/
theorem verifyTokenAuth_fails_of_no_live_record
    (ctx : Ctx) (st : ServerState) (n : Nat) (tok : String)
    (h : st.tokens.find? (fun r => r.token == tok && liveAt n r) = none) :
    (verifyTokenAuth ctx st n tok).1.isOk = false := by
  by_cases hj : ctx.jwtOk tok n
  · simp [verifyTokenAuth, verifyTokenSvc, hj, h, Except.isOk, Except.toBool]
  · simp [verifyTokenAuth, verifyTokenSvc, hj, Except.isOk, Except.toBool]

/-- C8: a token record live at issuance fails verification (1) at any instant
after `logout` of its token string, (2) at any instant after `forceLogout` of
its owning account, and (3) at any instant past its `expiresAt`.  The
hypothesis `huniq` says the token string identifies the record uniquely — the
signed JWT embeds userId, deviceHash and issue instant, so equal strings are
the same row in reachable states. -/
theorem C8_token_lifecycle
    (ctx : Ctx) (st : ServerState) (now0 : Nat) (t : Token)
    (hmem : t ∈ st.tokens)
    (hlive : liveAt now0 t = true)
    (huniq : ∀ r ∈ st.tokens, r.token = t.token → r = t) :
    (∀ n, (verifyTokenAuth ctx (logout st t.token) n t.token).1.isOk = false) ∧
    (∀ n, (verifyTokenAuth ctx (forceLogout st t.userId) n t.token).1.isOk = false) ∧
    (∀ n, t.expiresAt ≤ n → (verifyTokenAuth ctx st n t.token).1.isOk = false) := by
  refine ⟨fun n => ?_, fun n => ?_, fun n hn => ?_⟩
  · apply verifyTokenAuth_fails_of_no_live_record
    apply List.find?_eq_none.mpr
    intro x hx
    simp only [logout, invalidateToken, List.mem_map] at hx
    obtain ⟨s, _, rfl⟩ := hx
    by_cases hst : s.token == t.token
    · simp [hst, liveAt]
    · simp [hst]
  · apply verifyTokenAuth_fails_of_no_live_record
    apply List.find?_eq_none.mpr
    intro x hx
    simp only [forceLogout, invalidateAllUserTokens, List.mem_map] at hx
    obtain ⟨s, hs, rfl⟩ := hx
    by_cases hsu : s.userId == t.userId
    · simp [hsu, liveAt]
    · cases hbe : (s.token == t.token) with
      | false => simp [hsu, hbe]
      | true =>
        exfalso
        have hseq : s = t := huniq s hs (by simpa using hbe)
        rw [hseq] at hsu
        simp at hsu
  · apply verifyTokenAuth_fails_of_no_live_record
    apply List.find?_eq_none.mpr
    intro s hs
    cases hbe : (s.token == t.token) with
    | false => simp [hbe]
    | true =>
      have hseq : s = t := huniq s hs (by simpa using hbe)
      subst hseq
      simp [liveAt, Nat.not_lt.mpr hn]

/-- Closed witness for C8 at `st0`: alice's live token `tokA` fails `verify`
after logout, after force-logout, and once past its expiry. -/
theorem C8_token_lifecycle_witness :
    liveAt 1000 tokA = true ∧
    (verifyTokenAuth testCtx (logout st0 "jwtA") 2000 "jwtA").1.isOk = false ∧
    (verifyTokenAuth testCtx (forceLogout st0 1) 2000 "jwtA").1.isOk = false ∧
    (verifyTokenAuth testCtx st0 90000000 "jwtA").1.isOk = false :=
  ⟨by decide,
   (C8_token_lifecycle testCtx st0 1000 tokA (by decide) (by decide) (by decide)).1 2000,
   (C8_token_lifecycle testCtx st0 1000 tokA (by decide) (by decide) (by decide)).2.1 2000,
   (C8_token_lifecycle testCtx st0 1000 tokA (by decide) (by decide) (by decide)).2.2
     90000000 (by decide)⟩

/-- C9: every Granted register or login appends exactly one token row, whose
stored `deviceHash` is the digest of the client-sent hash concatenated (with
the source's '-' separator) with the server-held salt — the salted derivative
`generateDeviceHash` — and, provided the digest differs from its input, no
newly stored row carries the raw client hash.  For register, the created user
row holds only username, email, password hash and the active flag — no
device-derived field exists server-side (the raw fingerprint and deviceId
never even reach the server: the request carries only the client hash). -/
theorem C9_only_salted_derivative_stored
    (ctx : Ctx) (st : ServerState) (now : Nat) (un em pw dh : String) :
    (∀ res st', register ctx st now un em pw dh = (.ok res, st') →
      (∃ row, st'.tokens = st.tokens ++ [row] ∧
        row.deviceHash = ctx.sha (dh ++ "-" ++ ctx.salt) ∧
        row.token = res.token ∧
        (ctx.sha (dh ++ "-" ++ ctx.salt) ≠ dh →
          ∀ t ∈ st'.tokens, t ∉ st.tokens → t.deviceHash ≠ dh)) ∧
      (∀ u ∈ st'.users, u ∈ st.users ∨
        (u.id = st.nextUserId ∧ u.username = un ∧ u.email = em ∧
         u.password = ctx.pwHash pw ∧ u.isActive = true))) ∧
    (∀ res st', login ctx st now un pw dh = (.ok res, st') →
      ∃ row, st'.tokens = st.tokens ++ [row] ∧
        row.deviceHash = ctx.sha (dh ++ "-" ++ ctx.salt) ∧
        row.token = res.token ∧
        (ctx.sha (dh ++ "-" ++ ctx.salt) ≠ dh →
          ∀ t ∈ st'.tokens, t ∉ st.tokens → t.deviceHash ≠ dh)) := by
  constructor
  · intro res st' h
    unfold register at h
    split at h
    · simp at h
    · split at h
      · simp at h
      · split at h
        · split at h <;> simp at h
        · simp only [generateToken, Prod.mk.injEq, Except.ok.injEq] at h
          obtain ⟨hres, hst⟩ := h
          subst hst
          subst hres
          constructor
          · refine ⟨_, rfl, rfl, rfl, fun hne x hx hnx => ?_⟩
            rcases List.mem_append.mp hx with hin | hin
            · exact absurd hin hnx
            · rcases List.mem_singleton.mp hin with rfl
              simpa [generateDeviceHash] using hne
          · intro u hu
            rcases List.mem_append.mp hu with hin | hin
            · exact Or.inl hin
            · rcases List.mem_singleton.mp hin with rfl
              exact Or.inr ⟨rfl, rfl, rfl, rfl, rfl⟩
  · intro res st' h
    unfold login at h
    split at h
    · simp at h
    · split at h
      · simp at h
      · split at h
        · simp at h
        · simp only [generateToken, Prod.mk.injEq, Except.ok.injEq] at h
          obtain ⟨hres, hst⟩ := h
          subst hst
          subst hres
          refine ⟨_, rfl, rfl, rfl, fun hne x hx hnx => ?_⟩
          rcases List.mem_append.mp hx with hin | hin
          · exact absurd hin hnx
          · rcases List.mem_singleton.mp hin with rfl
            simpa [generateDeviceHash] using hne

/-- Closed witness for C9: the token row stored by a concrete granted login
carries exactly the salted derivative of `hashB`, never the raw hash. -/
theorem C9_only_salted_derivative_stored_witness :
    ∃ row, (login testCtx st0 1000 "alice" "pw" hashB).2.tokens = st0.tokens ++ [row] ∧
      row.deviceHash = testCtx.sha (hashB ++ "-" ++ testCtx.salt) ∧
      row.token = testCtx.signToken 1 (generateDeviceHash testCtx hashB) 1000 ∧
      (testCtx.sha (hashB ++ "-" ++ testCtx.salt) ≠ hashB →
        ∀ t ∈ (login testCtx st0 1000 "alice" "pw" hashB).2.tokens,
          t ∉ st0.tokens → t.deviceHash ≠ hashB) :=
  (C9_only_salted_derivative_stored testCtx st0 1000 "alice" "alice@example.com" "pw" hashB).2
    { userId := 1, token := testCtx.signToken 1 (generateDeviceHash testCtx hashB) 1000 }
    (login testCtx st0 1000 "alice" "pw" hashB).2 rfl

/-- `List.find?` yields the element when it satisfies the predicate and is the
only member doing so. -/
theorem find?_eq_some_of_unique {α : Type} (p : α → Bool) (a : α) :
    ∀ l : List α, a ∈ l → p a = true → (∀ b ∈ l, p b = true → b = a) →
      l.find? p = some a := by
  intro l
  induction l with
  | nil => intro ha _ _; cases ha
  | cons x xs ih =>
    intro ha hpa huniq
    cases hx : p x with
    | true =>
      have hxa : x = a := huniq x (List.mem_cons_self x xs) hx
      rw [List.find?_cons_of_pos _ hx, hxa]
    | false =>
      rw [List.find?_cons_of_neg _ (by simp [hx])]
      have hax : a ∈ xs := by
        rcases List.mem_cons.mp ha with h | h
        · subst h; rw [hpa] at hx; cases hx
        · exact h
      exact ih hax hpa (fun b hb hpb => huniq b (List.mem_cons_of_mem _ hb) hpb)

/-- C10: `login` matches the account by username OR email, so supplying the
account's email in the username field with the correct password behaves
exactly like supplying the username: same result, in particular the same
Granted token.  The uniqueness hypotheses say no other active account carries
this account's username or email as one of its identifiers (guaranteed by the
registration validators: usernames are `[a-zA-Z0-9_]+`, emails contain '@'). -/
theorem C10_email_login_equals_username_login
    (ctx : Ctx) (st : ServerState) (now : Nat) (pw dh : String) (u : User)
    (hu : u ∈ st.users) (hact : u.isActive = true)
    (huniqU : ∀ v ∈ st.users,
      ((v.username == u.username || v.email == u.username) && v.isActive) = true → v = u)
    (huniqE : ∀ v ∈ st.users,
      ((v.username == u.email || v.email == u.email) && v.isActive) = true → v = u)
    (hpw : ctx.pwVerify pw u.password = true)
    (hfmt : isValidDeviceHash dh = true) :
    login ctx st now u.email pw dh = login ctx st now u.username pw dh ∧
    (login ctx st now u.username pw dh).1 =
      .ok { userId := u.id, token := ctx.signToken u.id (generateDeviceHash ctx dh) now } := by
  have hU : st.users.find?
      (fun v => (v.username == u.username || v.email == u.username) && v.isActive) = some u :=
    find?_eq_some_of_unique _ u st.users hu (by simp [hact]) huniqU
  have hE : st.users.find?
      (fun v => (v.username == u.email || v.email == u.email) && v.isActive) = some u :=
    find?_eq_some_of_unique _ u st.users hu (by simp [hact]) huniqE
  constructor
  · simp [login, hfmt, hU, hE]
  · simp [login, hfmt, hU, hpw, generateToken]

/-- Closed witness for C10 at `st0`: alice's email logs in exactly like her
username and is granted the same token. -/
theorem C10_email_login_equals_username_login_witness :
    login testCtx st0 1000 "alice@example.com" "pw" hashB =
      login testCtx st0 1000 "alice" "pw" hashB ∧
    (login testCtx st0 1000 "alice" "pw" hashB).1 =
      .ok { userId := 1, token := testCtx.signToken 1 (generateDeviceHash testCtx hashB) 1000 } :=
  C10_email_login_equals_username_login testCtx st0 1000 "pw" hashB alice
    (by decide) (by decide) (by decide) (by decide) (by decide) (by decide)
